import Mathlib

/-!
Shallow embedding of `src/service-worker.js` (PIX notifier service worker):
the versioned cache store, the fetch interceptor, the activate sweep, the
push-notification builder, the notification-click router and the message
handler, together with theorems settling the spec claims about them.
-/

namespace SW

/-- `const CACHE_NAME = 'pix-notifier-v1'`. -/
def CACHE_NAME : String := "pix-notifier-v1"

/-- `const urlsToCache = ['/', '/index.html', '/manifest.json']`. -/
def urlsToCache : List String := ["/", "/index.html", "/manifest.json"]

/-- Whether `pat` is a prefix of `s` (over character lists). -/
def prefixOfChars : List Char → List Char → Bool
  | [], _ => true
  | _ :: _, [] => false
  | p :: ps, c :: cs => p == c && prefixOfChars ps cs

/-- Whether `pat` occurs as a contiguous sublist of `s`. -/
def containsChars (pat : List Char) : List Char → Bool
  | [] => prefixOfChars pat []
  | c :: rest => prefixOfChars pat (c :: rest) || containsChars pat rest

/-- JavaScript `s.includes(pat)`: substring test. -/
def includesSubstr (s pat : String) : Bool :=
  containsChars pat.data s.data

/-- A request, canonicalized to its cache key (method + URL). -/
structure Request where
  method : String
  url : String
deriving DecidableEq

/-- A response snapshot: status, status text, headers and body. -/
structure Response where
  status : Nat
  statusText : String
  headers : List (String × String)
  body : String
deriving DecidableEq

/-- One cache collection: an association list keyed by request. -/
abbrev Cache := List (Request × Response)

/-- The cache storage: named collections, in creation order. Browser cache
storage keys are unique, which theorems state as a `Nodup` hypothesis. -/
abbrev CacheStorage := List (String × Cache)

/-- `cache.match(request)` within one collection: first entry whose key
equals the request. -/
def lookupCache : Cache → Request → Option Response
  | [], _ => none
  | (r, resp) :: rest, req => if r = req then some resp else lookupCache rest req

/-- `caches.match(request)`: search every collection in order, return the
first stored response found. -/
def matchAllCaches : CacheStorage → Request → Option Response
  | [], _ => none
  | (_, c) :: rest, req =>
    match lookupCache c req with
    | some resp => some resp
    | none => matchAllCaches rest req

/-- `cache.put(request, response)`: overwrite the entry for this key if
present, else append it. -/
def putEntry : Cache → Request → Response → Cache
  | [], req, resp => [(req, resp)]
  | (r, v) :: rest, req, resp =>
    if r = req then (req, resp) :: rest else (r, v) :: putEntry rest req resp

/-- `caches.open(name).then(cache => cache.put(req, resp))`: open (creating
if absent) the named collection and put the entry into it. -/
def cacheOpenPut : CacheStorage → String → Request → Response → CacheStorage
  | [], name, req, resp => [(name, [(req, resp)])]
  | (n, c) :: rest, name, req, resp =>
    if n = name then (n, putEntry c req resp) :: rest
    else (n, c) :: cacheOpenPut rest name req resp

/-- The synthetic offline fallback built in the fetch handler's catch:
`new Response('Offline - Sem conexão', { status: 503, ... })`. -/
def offlineResponse : Response :=
  { status := 503
    statusText := "Service Unavailable"
    headers := [("Content-Type", "text/plain")]
    body := "Offline - Sem conexão" }

/-- Observable outcome of one fetch interception: the response handed to the
requester, whether the network was consulted, and the cache entry written
by the fire-and-forget `cache.put` (if any). -/
structure FetchResult where
  response : Response
  networkCalled : Bool
  cacheWrite : Option (Request × Response)
deriving DecidableEq

/-- The fetch event listener. The network is a function from requests to
`Option Response`; `none` models a rejected `fetch` (no connectivity), which
the handler's catch converts into `offlineResponse`. On a cache hit the
stored response is returned with no network call; on a miss the network
response is returned, and additionally written to `CACHE_NAME` when the URL
does not contain `/api/` and the status is 200. -/
def handleFetch (cs : CacheStorage) (network : Request → Option Response)
    (req : Request) : FetchResult × CacheStorage :=
  match matchAllCaches cs req with
  | some resp =>
    ({ response := resp, networkCalled := false, cacheWrite := none }, cs)
  | none =>
    match network req with
    | none =>
      ({ response := offlineResponse, networkCalled := true, cacheWrite := none }, cs)
    | some resp =>
      if includesSubstr req.url "/api/" then
        ({ response := resp, networkCalled := true, cacheWrite := none }, cs)
      else if resp.status = 200 then
        ({ response := resp, networkCalled := true, cacheWrite := some (req, resp) },
         cacheOpenPut cs CACHE_NAME req resp)
      else
        ({ response := resp, networkCalled := true, cacheWrite := none }, cs)

/-- Whether a request URL is same-origin with respect to the given page
origin: a relative URL (starting with `/`) is, and an absolute URL is when
it extends the origin. The service worker source performs no such check;
this predicate only expresses the spec's origin vocabulary. -/
def isSameOrigin (origin url : String) : Bool :=
  prefixOfChars origin.data url.data || prefixOfChars "/".data url.data

/-- One entry of the notification `actions` array. -/
structure NotificationAction where
  action : String
  title : String
  icon : String
deriving DecidableEq

/-- The notification options object built by the push listener. -/
structure NotificationOptions where
  body : String
  icon : String
  badge : String
  vibrate : List Nat
  tag : String
  requireInteraction : Bool
  actions : List NotificationAction
deriving DecidableEq

/-- The push event listener: builds the title and options passed to
`self.registration.showNotification`. The payload is `event.data` — `some`
text when the push carried data, `none` otherwise; the body is
`event.data ? event.data.text() : 'Novo PIX gerado!'`. -/
def handlePush (payload : Option String) : String × NotificationOptions :=
  ("💰 Novo PIX!",
   { body := match payload with
       | some t => t
       | none => "Novo PIX gerado!"
     icon := "https://cdn-icons-png.flaticon.com/512/825/825454.png"
     badge := "https://cdn-icons-png.flaticon.com/512/825/825454.png"
     vibrate := [200, 100, 200, 100, 200]
     tag := "pix-notification"
     requireInteraction := true
     actions :=
       [{ action := "view", title := "Ver Detalhes",
          icon := "https://cdn-icons-png.flaticon.com/512/709/709612.png" },
        { action := "close", title := "Fechar",
          icon := "https://cdn-icons-png.flaticon.com/512/458/458594.png" }] })

/-- An open application window as seen through `clients.matchAll`: its URL
and whether it exposes a `focus` method (window clients always do). -/
structure Client where
  url : String
  hasFocus : Bool
deriving DecidableEq

/-- Observable navigation effect of the notification-click handler. -/
inductive ClickEffect where
  | focusClient (c : Client)
  | openWindow (url : String)
deriving DecidableEq

/-- The `for` loop over `clientList`: the first client whose URL contains
`index.html` and that has a `focus` method. -/
def findEntryClient : List Client → Option Client
  | [] => none
  | c :: rest =>
    if includesSubstr c.url "index.html" && c.hasFocus then some c
    else findEntryClient rest

/-- Outcome of the notificationclick listener. -/
structure ClickResult where
  notificationClosed : Bool
  effects : List ClickEffect
deriving DecidableEq

/-- The notificationclick event listener: always closes the notification;
on the `view` action it focuses the first open client whose URL contains
`index.html`, else opens one new window at `/` (when `clients.openWindow`
is available). Any other action performs no navigation. -/
def handleNotificationClick (action : String) (clientList : List Client)
    (openWindowAvailable : Bool) : ClickResult :=
  if action = "view" then
    { notificationClosed := true
      effects :=
        match findEntryClient clientList with
        | some c => [ClickEffect.focusClient c]
        | none => if openWindowAvailable then [ClickEffect.openWindow "/"] else [] }
  else
    { notificationClosed := true, effects := [] }

/-- Observable effect of the message listener. -/
inductive MsgEffect where
  | skipWaiting
  | postMessage (portIdx : Nat) (msgType : String) (status : String)
deriving DecidableEq

/-- `event.data` of a message event, when it is an object with a `type`. -/
structure MessageData where
  type : String
deriving DecidableEq

/-- The message event listener. `numPorts` is `event.ports.length`. For a
`PING` with no reply port, `event.ports[0]` is `undefined` and the call
`event.ports[0].postMessage(...)` throws, modelled as `Except.error`; the
effects already performed before the throw would be the `skips` prefix. -/
def handleMessage (data : Option MessageData) (numPorts : Nat) :
    Except String (List MsgEffect) :=
  let skips : List MsgEffect :=
    match data with
    | some d => if d.type = "SKIP_WAITING" then [MsgEffect.skipWaiting] else []
    | none => []
  match data with
  | some d =>
    if d.type = "PING" then
      if numPorts = 0 then
        Except.error "TypeError: cannot call postMessage of undefined"
      else
        Except.ok (skips ++ [MsgEffect.postMessage 0 "PONG" "Service Worker ativo"])
    else Except.ok skips
  | none => Except.ok skips

/-- Observable step of the activate handler: deleting a named cache
collection, or claiming the open clients. -/
inductive ActEvent where
  | deleteCache (name : String)
  | claimClients
deriving DecidableEq

/-- The activate event listener: `caches.keys()` is enumerated and every
collection whose name differs from `CACHE_NAME` is deleted; once all the
deletions (the `Promise.all`) settle, `self.clients.claim()` runs. Returns
the surviving storage and the ordered trace of observable steps. -/
def handleActivate (cs : CacheStorage) : CacheStorage × List ActEvent :=
  (cs.filter (fun p => decide (p.1 = CACHE_NAME)),
   ((cs.map Prod.fst).filter (fun n => decide (n ≠ CACHE_NAME))).map ActEvent.deleteCache
     ++ [ActEvent.claimClients])

end SW

namespace SW

/-- Looking up a key right after `putEntry` stored it returns the stored
response. -/
theorem lookupCache_putEntry (c : Cache) (req : Request) (resp : Response) :
    lookupCache (putEntry c req resp) req = some resp := by
  induction c with
  | nil => simp [putEntry, lookupCache]
  | cons hd tl ih =>
    obtain ⟨r, v⟩ := hd
    by_cases h : r = req
    · subst h
      simp [putEntry, lookupCache]
    · simp [putEntry, lookupCache, h, ih]

/-- A storage-wide miss means the request misses every collection. -/
theorem matchAllCaches_none_head (n : String) (c : Cache) (rest : CacheStorage)
    (req : Request) (h : matchAllCaches ((n, c) :: rest) req = none) :
    lookupCache c req = none ∧ matchAllCaches rest req = none := by
  unfold matchAllCaches at h
  cases hl : lookupCache c req with
  | some resp => rw [hl] at h; exact absurd h (by simp)
  | none => rw [hl] at h; exact ⟨rfl, h⟩

/-- After a storage-wide miss, `cacheOpenPut` makes the entry findable by
`matchAllCaches`. -/
theorem matchAllCaches_cacheOpenPut (cs : CacheStorage) (name : String)
    (req : Request) (resp : Response) (hmiss : matchAllCaches cs req = none) :
    matchAllCaches (cacheOpenPut cs name req resp) req = some resp := by
  induction cs with
  | nil => simp [cacheOpenPut, matchAllCaches, lookupCache]
  | cons hd rest ih =>
    obtain ⟨n, c⟩ := hd
    obtain ⟨hc, hrest⟩ := matchAllCaches_none_head n c rest req hmiss
    by_cases h : n = name
    · subst h
      have hstep : cacheOpenPut ((n, c) :: rest) n req resp =
          (n, putEntry c req resp) :: rest := by
        simp [cacheOpenPut]
      rw [hstep]
      unfold matchAllCaches
      rw [lookupCache_putEntry]
    · have hstep : cacheOpenPut ((n, c) :: rest) name req resp =
          (n, c) :: cacheOpenPut rest name req resp := by
        simp [cacheOpenPut, h]
      rw [hstep]
      unfold matchAllCaches
      rw [hc, ih hrest]

/-- C1: if the request has a stored entry, the interceptor returns exactly
that entry, makes no network call, writes nothing, and leaves the storage
unchanged. -/
theorem fetch_cache_hit (cs : CacheStorage) (network : Request → Option Response)
    (req : Request) (resp : Response) (h : matchAllCaches cs req = some resp) :
    handleFetch cs network req =
      ({ response := resp, networkCalled := false, cacheWrite := none }, cs) := by
  unfold handleFetch
  rw [h]

/-- C2: if the network call fails (`network req = none`) and no cache entry
exists, the interceptor returns the synthetic fallback — status 503 with a
plain-text body — rather than propagating the failure (the handler is total:
it always produces a response). -/
theorem fetch_offline_fallback (cs : CacheStorage) (network : Request → Option Response)
    (req : Request) (hmiss : matchAllCaches cs req = none) (hnet : network req = none) :
    (handleFetch cs network req).1.response = offlineResponse ∧
    offlineResponse.status = 503 ∧
    ("Content-Type", "text/plain") ∈ offlineResponse.headers := by
  unfold handleFetch
  rw [hmiss, hnet]
  exact ⟨rfl, rfl, by decide⟩

/-- Witness for C2: empty storage, dead network. -/
theorem fetch_offline_fallback_witness :
    matchAllCaches [] ⟨"GET", "/"⟩ = none ∧
    (fun (_ : Request) => (none : Option Response)) ⟨"GET", "/"⟩ = none ∧
    ((handleFetch [] (fun _ => none) ⟨"GET", "/"⟩).1.response = offlineResponse ∧
     offlineResponse.status = 503 ∧
     ("Content-Type", "text/plain") ∈ offlineResponse.headers) :=
  ⟨rfl, rfl, fetch_offline_fallback [] (fun _ => none) ⟨"GET", "/"⟩ rfl rfl⟩

/-- C3: for a request whose URL contains `/api/`, the interceptor never
writes a cache entry and leaves the storage unchanged, whatever the cache
contents and whatever status the network returns. -/
theorem fetch_api_never_cached (cs : CacheStorage) (network : Request → Option Response)
    (req : Request) (hapi : includesSubstr req.url "/api/" = true) :
    (handleFetch cs network req).1.cacheWrite = none ∧
    (handleFetch cs network req).2 = cs := by
  unfold handleFetch
  cases hm : matchAllCaches cs req with
  | some resp => exact ⟨rfl, rfl⟩
  | none =>
    cases hn : network req with
    | none => exact ⟨rfl, rfl⟩
    | some resp =>
      simp only [hapi]
      exact ⟨rfl, rfl⟩

/-- Witness for C3: a 200-status API response is not cached. -/
theorem fetch_api_never_cached_witness :
    includesSubstr "/api/pix/status" "/api/" = true ∧
    ((handleFetch [] (fun _ => some ⟨200, "OK", [], "data"⟩) ⟨"GET", "/api/pix/status"⟩).1.cacheWrite
        = none ∧
     (handleFetch [] (fun _ => some ⟨200, "OK", [], "data"⟩) ⟨"GET", "/api/pix/status"⟩).2 = []) :=
  ⟨by decide,
   fetch_api_never_cached [] (fun _ => some ⟨200, "OK", [], "data"⟩)
     ⟨"GET", "/api/pix/status"⟩ (by decide)⟩

/-- Witness for C1 at a concrete one-entry storage. -/
theorem fetch_cache_hit_witness :
    matchAllCaches
        [(CACHE_NAME, [(⟨"GET", "/index.html"⟩, ⟨200, "OK", [], "home"⟩)])]
        ⟨"GET", "/index.html"⟩ = some ⟨200, "OK", [], "home"⟩ ∧
    handleFetch
        [(CACHE_NAME, [(⟨"GET", "/index.html"⟩, ⟨200, "OK", [], "home"⟩)])]
        (fun _ => none) ⟨"GET", "/index.html"⟩ =
      ({ response := ⟨200, "OK", [], "home"⟩, networkCalled := false, cacheWrite := none },
       [(CACHE_NAME, [(⟨"GET", "/index.html"⟩, ⟨200, "OK", [], "home"⟩)])]) :=
  ⟨by decide, fetch_cache_hit _ _ _ _ (by decide)⟩

/-- C4: a non-API request that misses the cache and gets a status-200
network response is delivered intact to the caller, a cache entry is
written under the request's key, and a subsequent identical request is
served from cache (no network call) with the same body. -/
theorem fetch_miss_200_roundtrip (cs : CacheStorage)
    (network net2 : Request → Option Response) (req : Request) (resp : Response)
    (hmiss : matchAllCaches cs req = none)
    (hapi : includesSubstr req.url "/api/" = false)
    (hnet : network req = some resp) (hst : resp.status = 200) :
    (handleFetch cs network req).1.response = resp ∧
    (handleFetch cs network req).1.cacheWrite = some (req, resp) ∧
    (handleFetch (handleFetch cs network req).2 net2 req).1.response.body = resp.body ∧
    (handleFetch (handleFetch cs network req).2 net2 req).1.networkCalled = false := by
  have hfirst : handleFetch cs network req =
      ({ response := resp, networkCalled := true, cacheWrite := some (req, resp) },
       cacheOpenPut cs CACHE_NAME req resp) := by
    unfold handleFetch
    rw [hmiss, hnet]
    simp [hapi, hst]
  have hsecond : matchAllCaches (cacheOpenPut cs CACHE_NAME req resp) req = some resp :=
    matchAllCaches_cacheOpenPut cs CACHE_NAME req resp hmiss
  rw [hfirst]
  refine ⟨rfl, rfl, ?_, ?_⟩
  · show (handleFetch (cacheOpenPut cs CACHE_NAME req resp) net2 req).1.response.body =
      resp.body
    unfold handleFetch
    rw [hsecond]
  · show (handleFetch (cacheOpenPut cs CACHE_NAME req resp) net2 req).1.networkCalled =
      false
    unfold handleFetch
    rw [hsecond]

/-- Witness for C4: a fresh storage, a network serving one page. -/
theorem fetch_miss_200_roundtrip_witness :
    (matchAllCaches [(CACHE_NAME, [])] ⟨"GET", "/app.js"⟩ = none ∧
     includesSubstr "/app.js" "/api/" = false ∧
     (fun (_ : Request) => some (⟨200, "OK", [], "console.log(1)"⟩ : Response))
         ⟨"GET", "/app.js"⟩ = some ⟨200, "OK", [], "console.log(1)"⟩ ∧
     (⟨200, "OK", [], "console.log(1)"⟩ : Response).status = 200) ∧
    ((handleFetch [(CACHE_NAME, [])] (fun _ => some ⟨200, "OK", [], "console.log(1)"⟩)
        ⟨"GET", "/app.js"⟩).1.response = ⟨200, "OK", [], "console.log(1)"⟩ ∧
     (handleFetch [(CACHE_NAME, [])] (fun _ => some ⟨200, "OK", [], "console.log(1)"⟩)
        ⟨"GET", "/app.js"⟩).1.cacheWrite =
       some (⟨"GET", "/app.js"⟩, ⟨200, "OK", [], "console.log(1)"⟩) ∧
     (handleFetch (handleFetch [(CACHE_NAME, [])]
          (fun _ => some ⟨200, "OK", [], "console.log(1)"⟩) ⟨"GET", "/app.js"⟩).2
        (fun _ => none) ⟨"GET", "/app.js"⟩).1.response.body = "console.log(1)" ∧
     (handleFetch (handleFetch [(CACHE_NAME, [])]
          (fun _ => some ⟨200, "OK", [], "console.log(1)"⟩) ⟨"GET", "/app.js"⟩).2
        (fun _ => none) ⟨"GET", "/app.js"⟩).1.networkCalled = false) :=
  ⟨⟨by decide, by decide, rfl, rfl⟩,
   fetch_miss_200_roundtrip [(CACHE_NAME, [])] _ (fun _ => none)
     ⟨"GET", "/app.js"⟩ ⟨200, "OK", [], "console.log(1)"⟩
     (by decide) (by decide) rfl rfl⟩

/-- Filtering pairs on their first component commutes with projecting the
first components. -/
theorem map_fst_filter_fst_eq (cs : CacheStorage) (a : String) :
    (cs.filter (fun p => decide (p.1 = a))).map Prod.fst =
      (cs.map Prod.fst).filter (fun n => decide (n = a)) := by
  induction cs with
  | nil => rfl
  | cons hd tl ih =>
    by_cases h : hd.1 = a <;> simp [List.filter_cons, h, ih]

/-- In a duplicate-free list containing `a`, keeping only the elements equal
to `a` leaves exactly `[a]`. -/
theorem filter_eq_self_single (l : List String) (a : String)
    (hnd : l.Nodup) (hmem : a ∈ l) :
    l.filter (fun n => decide (n = a)) = [a] := by
  induction l with
  | nil => cases hmem
  | cons hd tl ih =>
    rw [List.nodup_cons] at hnd
    rcases List.mem_cons.mp hmem with he | ht
    · subst he
      have hnil : tl.filter (fun n => decide (n = a)) = [] :=
        List.filter_eq_nil_iff.mpr (fun x hx => by
          simp only [decide_eq_true_eq]
          exact fun hxe => hnd.1 (hxe ▸ hx))
      simp [List.filter_cons, hnil]
    · have hne : ¬ hd = a := fun he => hnd.1 (he ▸ ht)
      simp [List.filter_cons, hne, ih hnd.2 ht]

/-- C5: when the storage keys are unique and the current version is among
them, the activate step leaves exactly the current collection, its trace
ends with `claimClients` (the takeover happens only after all deletions),
everything before the takeover is a deletion of a stale collection, and
every stale collection gets a deletion step. -/
theorem activate_single_version (cs : CacheStorage)
    (hnd : (cs.map Prod.fst).Nodup) (hmem : CACHE_NAME ∈ cs.map Prod.fst) :
    (handleActivate cs).1.map Prod.fst = [CACHE_NAME] ∧
    (handleActivate cs).2.getLast? = some ActEvent.claimClients ∧
    (∀ e ∈ (handleActivate cs).2.dropLast,
      ∃ n, n ≠ CACHE_NAME ∧ e = ActEvent.deleteCache n) ∧
    (∀ n ∈ cs.map Prod.fst, n ≠ CACHE_NAME →
      ActEvent.deleteCache n ∈ (handleActivate cs).2) := by
  unfold handleActivate
  refine ⟨?_, ?_, ?_, ?_⟩
  · rw [map_fst_filter_fst_eq]
    exact filter_eq_self_single _ _ hnd hmem
  · exact List.getLast?_concat _
  · intro e he
    rw [List.dropLast_concat] at he
    obtain ⟨n, hn, rfl⟩ := List.mem_map.mp he
    obtain ⟨-, hn2⟩ := List.mem_filter.mp hn
    exact ⟨n, by simpa using hn2, rfl⟩
  · intro n hn hne
    apply List.mem_append_left
    exact List.mem_map.mpr ⟨n, List.mem_filter.mpr ⟨hn, by simpa using hne⟩, rfl⟩

/-- Witness for C5: one stale collection next to the current one. -/
theorem activate_single_version_witness :
    (((([("pix-notifier-v0", []), (CACHE_NAME, [])] : CacheStorage).map Prod.fst).Nodup ∧
      CACHE_NAME ∈ ([("pix-notifier-v0", []), (CACHE_NAME, [])] : CacheStorage).map Prod.fst)) ∧
    ((handleActivate [("pix-notifier-v0", []), (CACHE_NAME, [])]).1.map Prod.fst
        = [CACHE_NAME] ∧
     (handleActivate [("pix-notifier-v0", []), (CACHE_NAME, [])]).2.getLast?
        = some ActEvent.claimClients ∧
     (∀ e ∈ (handleActivate [("pix-notifier-v0", []), (CACHE_NAME, [])]).2.dropLast,
        ∃ n, n ≠ CACHE_NAME ∧ e = ActEvent.deleteCache n) ∧
     (∀ n ∈ ([("pix-notifier-v0", []), (CACHE_NAME, [])] : CacheStorage).map Prod.fst,
        n ≠ CACHE_NAME →
        ActEvent.deleteCache n ∈ (handleActivate [("pix-notifier-v0", []), (CACHE_NAME, [])]).2)) :=
  ⟨⟨by decide, by decide⟩,
   activate_single_version [("pix-notifier-v0", []), (CACHE_NAME, [])] (by decide) (by decide)⟩

/-- C7 as stated is false: the fetch handler checks only the `/api/`
substring and the 200 status, never the origin. For the cross-origin icon
URL below — not same-origin with the app origin
`https://pix-notifier.example` — a status-200 response is written to the
cache. -/
theorem fetch_cross_origin_cached_counterexample :
    isSameOrigin "https://pix-notifier.example"
        "https://cdn-icons-png.flaticon.com/512/825/825454.png" = false ∧
    (handleFetch [] (fun _ => some ⟨200, "OK", [], "png-bytes"⟩)
        ⟨"GET", "https://cdn-icons-png.flaticon.com/512/825/825454.png"⟩).1.cacheWrite =
      some (⟨"GET", "https://cdn-icons-png.flaticon.com/512/825/825454.png"⟩,
            ⟨200, "OK", [], "png-bytes"⟩) :=
  ⟨by decide, by decide⟩

/-- C7 amended: every cache entry the interceptor writes has the fetched
request as its key, that request's network response as its value, status
200, and a non-API URL — with no same-origin restriction. -/
theorem fetch_cacheWrite_characterization (cs : CacheStorage)
    (network : Request → Option Response) (req : Request) (e : Request × Response)
    (h : (handleFetch cs network req).1.cacheWrite = some e) :
    e.1 = req ∧ network req = some e.2 ∧ e.2.status = 200 ∧
    includesSubstr e.1.url "/api/" = false := by
  cases hm : matchAllCaches cs req with
  | some resp =>
    rw [fetch_cache_hit cs network req resp hm] at h
    exact Option.noConfusion h
  | none =>
    cases hn : network req with
    | none =>
      have hfe : handleFetch cs network req =
          ({ response := offlineResponse, networkCalled := true, cacheWrite := none }, cs) := by
        unfold handleFetch
        rw [hm, hn]
      rw [hfe] at h
      exact Option.noConfusion h
    | some resp =>
      by_cases hapi : includesSubstr req.url "/api/" = true
      · have hfe : handleFetch cs network req =
            ({ response := resp, networkCalled := true, cacheWrite := none }, cs) := by
          unfold handleFetch
          rw [hm, hn]
          simp [hapi]
        rw [hfe] at h
        exact Option.noConfusion h
      · rw [Bool.not_eq_true] at hapi
        by_cases hst : resp.status = 200
        · have hfe : handleFetch cs network req =
              ({ response := resp, networkCalled := true, cacheWrite := some (req, resp) },
               cacheOpenPut cs CACHE_NAME req resp) := by
            unfold handleFetch
            rw [hm, hn]
            simp [hapi, hst]
          rw [hfe] at h
          injection h with he
          subst he
          refine ⟨rfl, ?_, ?_, ?_⟩
          · rfl
          · exact hst
          · exact hapi
        · have hfe : handleFetch cs network req =
              ({ response := resp, networkCalled := true, cacheWrite := none }, cs) := by
            unfold handleFetch
            rw [hm, hn]
            simp [hapi, hst]
          rw [hfe] at h
          exact Option.noConfusion h

/-- Witness for the amended C7 at a concrete cached write. -/
theorem fetch_cacheWrite_characterization_witness :
    (handleFetch [] (fun _ => some ⟨200, "OK", [], "body"⟩) ⟨"GET", "/style.css"⟩).1.cacheWrite
        = some ((⟨"GET", "/style.css"⟩, ⟨200, "OK", [], "body"⟩) : Request × Response) ∧
    (((⟨"GET", "/style.css"⟩, ⟨200, "OK", [], "body"⟩) : Request × Response).1
        = ⟨"GET", "/style.css"⟩ ∧
     (fun (_ : Request) => some (⟨200, "OK", [], "body"⟩ : Response)) ⟨"GET", "/style.css"⟩
        = some ((⟨"GET", "/style.css"⟩, ⟨200, "OK", [], "body"⟩) : Request × Response).2 ∧
     ((⟨"GET", "/style.css"⟩, ⟨200, "OK", [], "body"⟩) : Request × Response).2.status = 200 ∧
     includesSubstr
        ((⟨"GET", "/style.css"⟩, ⟨200, "OK", [], "body"⟩) : Request × Response).1.url
        "/api/" = false) :=
  ⟨by decide,
   fetch_cacheWrite_characterization [] (fun _ => some ⟨200, "OK", [], "body"⟩)
     ⟨"GET", "/style.css"⟩ ((⟨"GET", "/style.css"⟩, ⟨200, "OK", [], "body"⟩) : Request × Response)
     (by decide)⟩

/-- When some client matches the entry check and all clients expose
`focus`, the loop finds a matching client. -/
theorem findEntryClient_some (l : List Client)
    (hfocus : ∀ c ∈ l, c.hasFocus = true)
    (hex : ∃ c ∈ l, includesSubstr c.url "index.html" = true) :
    ∃ c, findEntryClient l = some c ∧ c ∈ l ∧
      includesSubstr c.url "index.html" = true := by
  induction l with
  | nil =>
    obtain ⟨c, hc, -⟩ := hex
    cases hc
  | cons hd tl ih =>
    by_cases hh : includesSubstr hd.url "index.html" = true
    · have hf := hfocus hd (List.mem_cons_self hd tl)
      refine ⟨hd, ?_, List.mem_cons_self hd tl, hh⟩
      simp [findEntryClient, hh, hf]
    · obtain ⟨c, hc, hp⟩ := hex
      rcases List.mem_cons.mp hc with rfl | ht
      · exact absurd hp hh
      · obtain ⟨d, h1, h2, h3⟩ :=
          ih (fun x hx => hfocus x (List.mem_cons_of_mem hd hx)) ⟨c, ht, hp⟩
        refine ⟨d, ?_, List.mem_cons_of_mem hd h2, h3⟩
        simpa [findEntryClient, hh] using h1

/-- When no client matches the entry check, the loop finds nothing. -/
theorem findEntryClient_none (l : List Client)
    (hnone : ∀ c ∈ l, includesSubstr c.url "index.html" = false) :
    findEntryClient l = none := by
  induction l with
  | nil => rfl
  | cons hd tl ih =>
    have hh := hnone hd (List.mem_cons_self hd tl)
    simp only [findEntryClient, hh, Bool.false_and, Bool.false_eq_true, if_false]
    exact ih (fun x hx => hnone x (List.mem_cons_of_mem hd hx))

/-- C6: on the `view` action, if some open client's URL matches the entry
document (all window clients exposing `focus`), that client is focused and
no window is opened; if none matches and `openWindow` is available, exactly
one window is opened at `/`. -/
theorem click_view_focus_or_open (clientList : List Client) (ow : Bool)
    (hfocus : ∀ c ∈ clientList, c.hasFocus = true) :
    ((∃ c ∈ clientList, includesSubstr c.url "index.html" = true) →
      ∃ c, handleNotificationClick "view" clientList ow =
          { notificationClosed := true, effects := [ClickEffect.focusClient c] } ∧
        c ∈ clientList ∧ includesSubstr c.url "index.html" = true) ∧
    ((∀ c ∈ clientList, includesSubstr c.url "index.html" = false) → ow = true →
      handleNotificationClick "view" clientList ow =
        { notificationClosed := true, effects := [ClickEffect.openWindow "/"] }) := by
  constructor
  · intro hex
    obtain ⟨c, h1, h2, h3⟩ := findEntryClient_some clientList hfocus hex
    exact ⟨c, by simp [handleNotificationClick, h1], h2, h3⟩
  · intro hnone how
    subst how
    simp [handleNotificationClick, findEntryClient_none clientList hnone]

/-- Witness for C6: one open client at the entry document. -/
theorem click_view_focus_or_open_witness :
    (∀ c ∈ [(⟨"https://pix.example/index.html", true⟩ : Client)], c.hasFocus = true) ∧
    (((∃ c ∈ [(⟨"https://pix.example/index.html", true⟩ : Client)],
        includesSubstr c.url "index.html" = true) →
      ∃ c, handleNotificationClick "view" [(⟨"https://pix.example/index.html", true⟩ : Client)]
            true =
          { notificationClosed := true, effects := [ClickEffect.focusClient c] } ∧
        c ∈ [(⟨"https://pix.example/index.html", true⟩ : Client)] ∧
        includesSubstr c.url "index.html" = true) ∧
    ((∀ c ∈ [(⟨"https://pix.example/index.html", true⟩ : Client)],
        includesSubstr c.url "index.html" = false) → true = true →
      handleNotificationClick "view" [(⟨"https://pix.example/index.html", true⟩ : Client)]
          true =
        { notificationClosed := true, effects := [ClickEffect.openWindow "/"] })) :=
  ⟨by decide,
   click_view_focus_or_open [(⟨"https://pix.example/index.html", true⟩ : Client)] true
     (by decide)⟩

/-- C8: the displayed notification body is the push payload text when one
is present, and the default `Novo PIX gerado!` when the push carried no
payload. -/
theorem push_body_payload_or_default (t : String) :
    (handlePush (some t)).2.body = t ∧
    (handlePush none).2.body = "Novo PIX gerado!" :=
  ⟨rfl, rfl⟩

/-- C9: a `PING` message with at least one reply port yields exactly one
reply — a `PONG` with the fixed status string on port 0 — and no other
effect (in particular no `skipWaiting`). -/
theorem message_ping_pong (numPorts : Nat) (h : 0 < numPorts) :
    handleMessage (some ⟨"PING"⟩) numPorts =
      Except.ok [MsgEffect.postMessage 0 "PONG" "Service Worker ativo"] := by
  unfold handleMessage
  have hz : ¬ numPorts = 0 := Nat.pos_iff_ne_zero.mp h
  simp [hz]

/-- Witness for C9 with a single reply port. -/
theorem message_ping_pong_witness :
    0 < 1 ∧ handleMessage (some ⟨"PING"⟩) 1 =
      Except.ok [MsgEffect.postMessage 0 "PONG" "Service Worker ativo"] :=
  ⟨by decide, message_ping_pong 1 (by decide)⟩

/-- C10: a `PING` message with an empty reply-port list makes the handler
throw (the `event.ports[0].postMessage` call on `undefined`), so no `PONG`
is sent — the handler returns an error, not an effect list. -/
theorem message_ping_no_port_error :
    handleMessage (some ⟨"PING"⟩) 0 =
      Except.error "TypeError: cannot call postMessage of undefined" := by
  rfl

end SW
